import Mathlib

/-!
Verification of the investment-analytics cleaning/aggregation pipeline
shared by `app.py` and `main.py`.

The pipeline is embedded shallowly: a spreadsheet cell is a `Cell` (null,
unparsable, or a typed value), a raw row is a `RawRecord`, and the cleaning
steps of lines 16-34 of `app.py` (lines 15-34 of `main.py`, identical) are
transcribed into `cleanRow`/`clean`.  Aggregations are grouped reductions
over lists of `CleanedRecord`.
-/

/-- Outcome of reading one spreadsheet cell: missing (`null`), present but
unparsable for the expected type (`bad`), or a parsed value. -/
inductive Cell (α : Type) where
  | null : Cell α
  | bad : Cell α
  | val : α → Cell α
deriving DecidableEq

/-- A calendar date; the pipeline only ever reads the year. -/
structure Date where
  year : Int
  month : Nat
  day : Nat
deriving DecidableEq

/-- One row of the source spreadsheet, restricted to the six columns the
pipeline keeps (`columns_to_keep`). -/
structure RawRecord where
  dob : Cell Date
  invYear : Option Int
  invMonth : Option String
  land : Option String
  unit : Cell Int
  amount : Cell Int
deriving DecidableEq

/-- One cleaned row after lines 16-34: parsed date of birth, validated
month label, numeric unit/amount, derived age and (possibly null) age
group. -/
structure CleanedRecord where
  dob : Date
  invYear : Int
  invMonth : String
  land : String
  unit : Int
  amount : Int
  age : Int
  ageGroup : Option String
deriving DecidableEq

/-- `str.strip()`: remove leading and trailing whitespace. -/
def strStrip (s : String) : String :=
  ⟨((s.data.dropWhile Char.isWhitespace).reverse.dropWhile Char.isWhitespace).reverse⟩

/-- `str.upper()`: uppercase every character. -/
def strUpper (s : String) : String :=
  ⟨s.data.map Char.toUpper⟩

/-- Line 24: `.astype(str).str.strip().str.upper()` applied to one cell
(the `astype(str)` part is `astypeStr`). -/
def normMonth (s : String) : String :=
  strUpper (strStrip s)

/-- `.astype(str)` on one cell: a missing value prints as the string
"nan". -/
def astypeStr (o : Option String) : String :=
  match o with
  | none => "nan"
  | some s => s

/-- Line 23: the fixed seven-label fiscal month ordering. -/
def month_order : List String :=
  ["JULY", "AUGUST", "SEPTEMBER", "OCTOBER", "NOVEMBER", "DECEMBER", "JANUARY"]

/-- Line 31: the age-bin boundaries passed to `pd.cut`. -/
def bins : List Int := [18, 30, 40, 50, 60, 70, 100]

/-- Line 32: the age-group labels passed to `pd.cut`. -/
def labels : List String := ["18-29", "30-39", "40-49", "50-59", "60-69", "70+"]

/-- `pd.cut(x, bins, labels, right=False)` on one value: scan the
consecutive half-open intervals `[lo, hi)` and return the matching label,
or none when the value falls outside every bin. -/
def cutRightFalse (bs : List Int) (ls : List String) (x : Int) : Option String :=
  match bs, ls with
  | lo :: hi :: rest, l :: lrest =>
    if lo ≤ x ∧ x < hi then some l else cutRightFalse (hi :: rest) lrest x
  | _, _ => none

/-- Line 33: bin an age into its age group. -/
def ageGroupOf (a : Int) : Option String :=
  cutRightFalse bins labels a

/-- The hard-coded reference year in `2025 - x.year` (line 21 of `app.py`,
line 20 of `main.py`). -/
def referenceYear : Int := 2025

/-- `pd.to_numeric(errors="coerce")` on one cell followed by the blanket
`dropna` test: only an already-numeric value survives; null and
unparsable cells become NaN. -/
def toNumeric (x : Cell Int) : Option Int :=
  match x with
  | Cell.val n => some n
  | _ => none

/-- Lines 18-33 applied to one row: `dropna(subset=[DOB, AMOUNT])`,
`to_datetime(errors="coerce")` plus `dropna(subset=[DOB])`, the age
derivation, month normalization and `isin(month_order)` filter,
`to_numeric` coercion of UNIT and AMOUNT plus the blanket `dropna()`
(which also drops rows with a missing LAND or INVESTMENT YEAR), and
finally the `pd.cut` binning.  Returns none when any step drops the
row. -/
def cleanRow (r : RawRecord) : Option CleanedRecord :=
  if r.dob = Cell.null ∨ r.amount = Cell.null then none
  else
    match r.dob with
    | Cell.val d =>
      let age : Int := referenceYear - d.year
      let m : String := normMonth (astypeStr r.invMonth)
      if m ∈ month_order then
        match toNumeric r.unit, toNumeric r.amount, r.land, r.invYear with
        | some u, some a, some l, some y =>
          some { dob := d, invYear := y, invMonth := m, land := l, unit := u,
                 amount := a, age := age, ageGroup := ageGroupOf age }
        | _, _, _, _ => none
      else none
    | _ => none

/-- Lines 16-34: the whole cleaning stage.  The trailing filter is line 34,
`df[df["INVESTMENT MONTH"].notna()]`: after the `Categorical` conversion a
month is non-null exactly when it is one of the seven categories. -/
def clean (rs : List RawRecord) : List CleanedRecord :=
  (rs.filterMap cleanRow).filter (fun c => decide (c.invMonth ∈ month_order))

/-- Line 41 of `app.py`: the age-group/land-type filter.  `isin` is set
membership, where a selectable age-group option is either a bin label or
the null group (`df["AGE GROUP"].unique()` lists NaN when present), so a
selection is a list of `Option String`. -/
def filtered_df (rows : List CleanedRecord) (gsel : List (Option String))
    (lsel : List String) : List CleanedRecord :=
  rows.filter (fun c => decide (c.ageGroup ∈ gsel) && decide (c.land ∈ lsel))

/-- Line 39 of `main.py`: the single-year filter. -/
def filteredByYear (rows : List CleanedRecord) (y : Int) : List CleanedRecord :=
  rows.filter (fun c => decide (c.invYear = y))

/-- `filtered_df["AMOUNT"].sum()` (line 46 of `app.py`, line 42 of
`main.py`): the total-amount metric over a row set. -/
def totalAmount (rows : List CleanedRecord) : Int :=
  (rows.map (fun c => c.amount)).sum

/-- `groupby("AGE GROUP")["AMOUNT"].sum()` at one group `g`: rows whose
(non-null) age group is `g` contribute their amount; null-group rows
belong to no group. -/
def ageAmountSum (rows : List CleanedRecord) (g : String) : Int :=
  ((rows.filter (fun c => decide (c.ageGroup = some g))).map (fun c => c.amount)).sum

/-- `groupby("AGE GROUP")["UNIT"].sum()` at one group `g`. -/
def ageUnitSum (rows : List CleanedRecord) (g : String) : Int :=
  ((rows.filter (fun c => decide (c.ageGroup = some g))).map (fun c => c.unit)).sum

/-- `pd.crosstab(INVESTMENT MONTH, AGE GROUP)` at one cell: the count of
rows with that month and that (non-null) age group. -/
def monthGroupCount (rows : List CleanedRecord) (m g : String) : Nat :=
  (rows.filter (fun c => decide (c.invMonth = m ∧ c.ageGroup = some g))).length

/-- `groupby("INVESTMENT MONTH")["AMOUNT"].sum()` at one month `m`. -/
def monthAmountSum (rows : List CleanedRecord) (m : String) : Int :=
  ((rows.filter (fun c => decide (c.invMonth = m))).map (fun c => c.amount)).sum

/-- One cell of `pivot_table(index="INVESTMENT MONTH", columns="AGE GROUP",
values="AMOUNT", aggfunc="sum", fill_value=0)`: the summed amount over
rows matching both keys, 0 when no row matches. -/
def pivotCell (rows : List CleanedRecord) (m g : String) : Int :=
  ((rows.filter (fun c => decide (c.invMonth = m ∧ c.ageGroup = some g))).map
    (fun c => c.amount)).sum

/-- The full pivot matrix: because INVESTMENT MONTH and AGE GROUP are both
`Categorical`, the pivot has one row per fiscal month in `month_order` and
one column per bin label in `labels`, every cell present and zero-filled
(`fill_value=0`). -/
def heatmapMatrix (rows : List CleanedRecord) : List (String × List (String × Int)) :=
  month_order.map (fun m => (m, labels.map (fun g => (g, pivotCell rows m g))))

/-- Line 16: the six column names the pipeline keeps; in spec vocabulary
DOB = date_of_birth, INVESTMENT YEAR = investment_year, INVESTMENT MONTH =
investment_month, LAND = land_type, UNIT = unit_count, AMOUNT = amount. -/
def columns_to_keep : List String :=
  ["DOB", "INVESTMENT YEAR", "INVESTMENT MONTH", "LAND", "UNIT", "AMOUNT"]

/-- The two fatal load failures: an unreadable or missing source file
(`pd.read_excel` raising), or a required column absent from the source
(`df[columns_to_keep]` raising a KeyError). -/
inductive LoadError where
  | unreadable : LoadError
  | missingColumn : LoadError
deriving DecidableEq

/-- The tabular source: its header row and its data rows in source
order. -/
structure SourceTable where
  header : List String
  rows : List RawRecord
deriving DecidableEq

/-- `pd.read_excel` (line 13 of `app.py`): fails when the source is
missing or unreadable, otherwise yields the table. -/
def read_excel (src : Option SourceTable) : Except LoadError SourceTable :=
  match src with
  | none => Except.error LoadError.unreadable
  | some t => Except.ok t

/-- Lines 13-17: read the source, then select `columns_to_keep`; a missing
required column is fatal, and on success the rows come back in source
order. -/
def load (src : Option SourceTable) : Except LoadError (List RawRecord) :=
  match read_excel src with
  | Except.error e => Except.error e
  | Except.ok t =>
    if columns_to_keep.all (fun col => decide (col ∈ t.header)) then Except.ok t.rows
    else Except.error LoadError.missingColumn

/-- Re-reading the cleaned table: `df[columns_to_keep]` keeps only the six
source columns (the derived AGE and AGE GROUP are discarded), and every
kept field of a cleaned row is a present, parsed value. -/
def toRaw (c : CleanedRecord) : RawRecord :=
  { dob := Cell.val c.dob, invYear := some c.invYear, invMonth := some c.invMonth,
    land := some c.land, unit := Cell.val c.unit, amount := Cell.val c.amount }

/-- A fully valid sample row using the lowercase padded month " july ". -/
def rawJuly : RawRecord :=
  { dob := Cell.val ⟨2000, 1, 1⟩, invYear := some 2024, invMonth := some " july ",
    land := some "Residential", unit := Cell.val 2, amount := Cell.val 500000 }

/-- The cleaned form of `rawJuly`. -/
def cleanedJuly : CleanedRecord :=
  { dob := ⟨2000, 1, 1⟩, invYear := 2024, invMonth := "JULY", land := "Residential",
    unit := 2, amount := 500000, age := 25, ageGroup := some "18-29" }

/-- A second valid sample row (month "JANUARY", born 1960). -/
def rawJanuary : RawRecord :=
  { dob := Cell.val ⟨1960, 5, 5⟩, invYear := some 2025, invMonth := some "JANUARY",
    land := some "Commercial", unit := Cell.val 1, amount := Cell.val 250000 }

/-- The cleaned form of `rawJanuary`. -/
def cleanedJanuary : CleanedRecord :=
  { dob := ⟨1960, 5, 5⟩, invYear := 2025, invMonth := "JANUARY", land := "Commercial",
    unit := 1, amount := 250000, age := 65, ageGroup := some "60-69" }

/-- A row that is valid except that its month "MARCH" is outside the
fiscal set. -/
def rawMarch : RawRecord :=
  { dob := Cell.val ⟨1990, 1, 1⟩, invYear := some 2024, invMonth := some "MARCH",
    land := some "Residential", unit := Cell.val 1, amount := Cell.val 100 }

/-- A fully parsable row whose derived age (2025 − 1915 = 110) falls
outside every bin. -/
def rawOld : RawRecord :=
  { dob := Cell.val ⟨1915, 1, 1⟩, invYear := some 2024, invMonth := some "AUGUST",
    land := some "Residential", unit := Cell.val 1, amount := Cell.val 700 }

/-- The cleaned form of `rawOld`: retained, with a null age group. -/
def cleanedOld : CleanedRecord :=
  { dob := ⟨1915, 1, 1⟩, invYear := 2024, invMonth := "AUGUST", land := "Residential",
    unit := 1, amount := 700, age := 110, ageGroup := none }

/-! ### Inversion and helper lemmas -/

/-- Inversion for `cleanRow`: a row survives cleaning exactly by having a
parsed date of birth, numeric unit and amount, present land and year, and
a normalized month inside the fiscal set; the output fields are then
determined. -/
lemma cleanRow_inv {r : RawRecord} {c : CleanedRecord} (h : cleanRow r = some c) :
    ∃ d u a l y, r.dob = Cell.val d ∧ r.unit = Cell.val u ∧ r.amount = Cell.val a ∧
      r.land = some l ∧ r.invYear = some y ∧
      normMonth (astypeStr r.invMonth) ∈ month_order ∧
      c = { dob := d, invYear := y, invMonth := normMonth (astypeStr r.invMonth),
            land := l, unit := u, amount := a, age := referenceYear - d.year,
            ageGroup := ageGroupOf (referenceYear - d.year) } := by
  obtain ⟨dob, iy, im, land, unit, amount⟩ := r
  cases dob <;> cases unit <;> cases amount <;> cases land <;> cases iy <;>
    simp only [cleanRow, toNumeric] at h <;>
    simp_all

/-- Every record produced by `cleanRow` carries a month from the fiscal
set. -/
lemma cleanRow_month {r : RawRecord} {c : CleanedRecord} (h : cleanRow r = some c) :
    c.invMonth ∈ month_order := by
  obtain ⟨d, u, a, l, y, _, _, _, _, _, hm, hc⟩ := cleanRow_inv h
  subst hc
  exact hm

/-- Line 34 is a no-op: the final `notna` pass on INVESTMENT MONTH drops
nothing, because every surviving month is one of the seven categories. -/
lemma clean_eq_filterMap (rs : List RawRecord) : clean rs = rs.filterMap cleanRow := by
  unfold clean
  rw [List.filter_eq_self]
  intro c hc
  rw [List.mem_filterMap] at hc
  obtain ⟨r, _, hr⟩ := hc
  exact decide_eq_true (cleanRow_month hr)

/-- Membership in the cleaned output comes from some raw row. -/
lemma mem_clean {rs : List RawRecord} {c : CleanedRecord} (h : c ∈ clean rs) :
    ∃ r ∈ rs, cleanRow r = some c := by
  rw [clean_eq_filterMap, List.mem_filterMap] at h
  exact h

/-- The binning is non-null exactly on `[18, 100)`. -/
lemma ageGroupOf_ne_none (a : Int) : ageGroupOf a ≠ none ↔ 18 ≤ a ∧ a < 100 := by
  simp only [ageGroupOf, bins, labels, cutRightFalse]
  split_ifs <;> simp <;> omega

/-- Every non-null bin result is one of the six labels. -/
lemma ageGroupOf_mem_labels {a : Int} {g : String} (h : ageGroupOf a = some g) :
    g ∈ labels := by
  simp only [ageGroupOf, bins, labels, cutRightFalse] at h
  split_ifs at h <;> simp_all [labels]

/-! ### Claims -/

/-- Claim C1: for every record in the cleaned output, the derived age
group is non-null iff 18 ≤ age < 100, and binning uses the half-open
boundaries [18,30,40,50,60,70,100): 18 and 29 map to "18-29", 30 to
"30-39", 69 to "60-69", 70 to "70+", and any age below 18 or at/above 100
yields no group. -/
theorem claim_C1 :
    (∀ rs c, c ∈ clean rs → (c.ageGroup ≠ none ↔ 18 ≤ c.age ∧ c.age < 100)) ∧
    ageGroupOf 18 = some "18-29" ∧ ageGroupOf 29 = some "18-29" ∧
    ageGroupOf 30 = some "30-39" ∧ ageGroupOf 69 = some "60-69" ∧
    ageGroupOf 70 = some "70+" ∧
    ∀ a : Int, a < 18 ∨ 100 ≤ a → ageGroupOf a = none := by
  refine ⟨?_, by decide, by decide, by decide, by decide, by decide, ?_⟩
  · intro rs c hc
    obtain ⟨r, _, hr⟩ := mem_clean hc
    obtain ⟨d, u, a, l, y, _, _, _, _, _, _, hcdef⟩ := cleanRow_inv hr
    subst hcdef
    exact ageGroupOf_ne_none _
  · intro a ha
    by_contra hne
    exact absurd ((ageGroupOf_ne_none a).mp hne) (by omega)

/-- Witness for C1 at concrete inputs: `cleanedJuly` (age 25) and the
out-of-range age 101. -/
theorem claim_C1_witness :
    (cleanedJuly ∈ clean [rawJuly] ∧
      (cleanedJuly.ageGroup ≠ none ↔ 18 ≤ cleanedJuly.age ∧ cleanedJuly.age < 100)) ∧
    (((101 : Int) < 18 ∨ (100 : Int) ≤ 101) ∧ ageGroupOf 101 = none) :=
  ⟨⟨by decide, claim_C1.1 [rawJuly] cleanedJuly (by decide)⟩,
   ⟨Or.inr (by decide), claim_C1.2.2.2.2.2.2 101 (Or.inr (by decide))⟩⟩

/-- Claim C2: month normalization trims and uppercases, and the row is
kept exactly when the result is one of the seven fiscal labels: " july "
normalizes to "JULY" and the row is retained, "MARCH" causes the row to
be dropped. -/
theorem claim_C2 :
    normMonth " july " = "JULY" ∧
    ("JULY" ∈ month_order ∧ "MARCH" ∉ month_order) ∧
    (∀ r, normMonth (astypeStr r.invMonth) ∉ month_order → cleanRow r = none) ∧
    (∀ r c, cleanRow r = some c →
      c.invMonth = normMonth (astypeStr r.invMonth) ∧ c.invMonth ∈ month_order) ∧
    clean [rawJuly] = [cleanedJuly] ∧ clean [rawMarch] = [] := by
  refine ⟨by decide, ⟨by decide, by decide⟩, ?_, ?_, by decide, by decide⟩
  · intro r hm
    cases hcr : cleanRow r with
    | none => rfl
    | some c =>
      obtain ⟨d, u, a, l, y, _, _, _, _, _, hmem, _⟩ := cleanRow_inv hcr
      exact absurd hmem hm
  · intro r c hcr
    obtain ⟨d, u, a, l, y, _, _, _, _, _, hmem, hcdef⟩ := cleanRow_inv hcr
    subst hcdef
    exact ⟨rfl, hmem⟩

/-- Witness for C2 at concrete inputs: the "MARCH" row is dropped, the
" july " row survives with month "JULY". -/
theorem claim_C2_witness :
    (normMonth (astypeStr rawMarch.invMonth) ∉ month_order ∧ cleanRow rawMarch = none) ∧
    (cleanRow rawJuly = some cleanedJuly ∧
      cleanedJuly.invMonth = normMonth (astypeStr rawJuly.invMonth) ∧
      cleanedJuly.invMonth ∈ month_order) :=
  ⟨⟨by decide, claim_C2.2.2.1 rawMarch (by decide)⟩,
   ⟨by decide, claim_C2.2.2.2.1 rawJuly cleanedJuly (by decide)⟩⟩

/-- Claim C3: for every cleaned record the derived age equals the fixed
reference year 2025 minus the birth year, with no day/month adjustment;
the reference year is a constant of the cleaning stage, not an input. -/
theorem claim_C3 :
    referenceYear = 2025 ∧
    ∀ rs c, c ∈ clean rs → c.age = referenceYear - c.dob.year := by
  refine ⟨rfl, ?_⟩
  intro rs c hc
  obtain ⟨r, _, hr⟩ := mem_clean hc
  obtain ⟨d, u, a, l, y, _, _, _, _, _, _, hcdef⟩ := cleanRow_inv hr
  subst hcdef
  rfl

/-- Witness for C3 at a concrete input: `cleanedJuly` has age
2025 − 2000 = 25. -/
theorem claim_C3_witness :
    cleanedJuly ∈ clean [rawJuly] ∧
    cleanedJuly.age = referenceYear - cleanedJuly.dob.year :=
  ⟨by decide, claim_C3.2 [rawJuly] cleanedJuly (by decide)⟩

/-- Strip and uppercase fix every label of the fiscal set. -/
lemma normMonth_fixed : ∀ m ∈ month_order, normMonth m = m := by decide

/-- Any cleaned record whose fields satisfy the pipeline invariants
re-enters the pipeline unchanged. -/
lemma cleanRow_toRaw_of {c : CleanedRecord} (hm : c.invMonth ∈ month_order)
    (hage : c.age = referenceYear - c.dob.year)
    (hgr : c.ageGroup = ageGroupOf c.age) :
    cleanRow (toRaw c) = some c := by
  obtain ⟨d, y, m, l, u, a, ag, gr⟩ := c
  simp only at hm hage hgr
  subst hage
  subst hgr
  have hfix := normMonth_fixed m hm
  simp [cleanRow, toRaw, toNumeric, astypeStr, hfix, hm]

/-- A cleaned record re-enters the pipeline unchanged: re-running
`cleanRow` on its six kept columns reproduces it. -/
lemma cleanRow_toRaw {r : RawRecord} {c : CleanedRecord} (h : cleanRow r = some c) :
    cleanRow (toRaw c) = some c := by
  obtain ⟨d, u, a, l, y, _, _, _, _, _, hmem, hcdef⟩ := cleanRow_inv h
  subst hcdef
  exact cleanRow_toRaw_of hmem rfl rfl

/-- `filterMap` with a function that fixes every member is the
identity. -/
lemma filterMap_id_of {α : Type} (l : List α) (f : α → Option α)
    (h : ∀ a ∈ l, f a = some a) : l.filterMap f = l := by
  induction l with
  | nil => rfl
  | cons x xs ih =>
    rw [List.filterMap_cons, h x (List.mem_cons_self x xs),
      ih (fun a ha => h a (List.mem_cons_of_mem x ha))]

/-- Claim C7: the cleaning stage is idempotent — re-reading the six kept
columns of its own output and cleaning again yields the same cleaned
sequence, for every raw input sequence. -/
theorem claim_C7 : ∀ rs, clean ((clean rs).map toRaw) = clean rs := by
  intro rs
  rw [clean_eq_filterMap, List.filterMap_map]
  refine filterMap_id_of _ _ ?_
  intro c hc
  obtain ⟨r, _, hr⟩ := mem_clean hc
  exact cleanRow_toRaw hr

/-- Claim C8: an empty age-group selection yields zero rows whatever the
land-type selection, and in general a record passes the filter exactly
when its age group is in the selected group set and its land type is in
the selected type set. -/
theorem claim_C8 :
    (∀ rows lsel, filtered_df rows [] lsel = []) ∧
    (∀ rows gsel lsel c, c ∈ filtered_df rows gsel lsel ↔
      c ∈ rows ∧ c.ageGroup ∈ gsel ∧ c.land ∈ lsel) := by
  constructor
  · intro rows lsel
    simp [filtered_df]
  · intro rows gsel lsel c
    simp [filtered_df, List.mem_filter, and_assoc]

/-- A source table carrying all six required columns (plus an extra
one). -/
def tableFull : SourceTable :=
  { header := ["DOB", "INVESTMENT YEAR", "INVESTMENT MONTH", "LAND", "UNIT",
               "AMOUNT", "NAME"], rows := [rawJuly, rawJanuary] }

/-- A source table missing four of the required columns. -/
def tableMissing : SourceTable :=
  { header := ["DOB", "LAND"], rows := [rawJuly] }

/-- Claim C9: the load fails whenever the source is missing/unreadable or
any of the six required columns is absent (no partial-column fallback),
and on success it returns the rows in source order. -/
theorem claim_C9 :
    load none = Except.error LoadError.unreadable ∧
    (∀ t col, col ∈ columns_to_keep → col ∉ t.header →
      load (some t) = Except.error LoadError.missingColumn) ∧
    (∀ t, (∀ col ∈ columns_to_keep, col ∈ t.header) →
      load (some t) = Except.ok t.rows) := by
  refine ⟨rfl, ?_, ?_⟩
  · intro t col hcol hnot
    simp only [load, read_excel]
    rw [if_neg]
    intro hall
    rw [List.all_eq_true] at hall
    exact hnot (of_decide_eq_true (hall col hcol))
  · intro t hall
    simp only [load, read_excel]
    rw [if_pos]
    rw [List.all_eq_true]
    intro col hcol
    exact decide_eq_true (hall col hcol)

/-- Witness for C9 at concrete tables: a table missing AMOUNT fails, a
complete table loads its rows in order. -/
theorem claim_C9_witness :
    ("AMOUNT" ∈ columns_to_keep ∧ "AMOUNT" ∉ tableMissing.header ∧
      load (some tableMissing) = Except.error LoadError.missingColumn) ∧
    ((∀ col ∈ columns_to_keep, col ∈ tableFull.header) ∧
      load (some tableFull) = Except.ok tableFull.rows) :=
  ⟨⟨by decide, by decide, claim_C9.2.1 tableMissing "AMOUNT" (by decide) (by decide)⟩,
   ⟨by decide, claim_C9.2.2 tableFull (by decide)⟩⟩

/-- Claim C10: a fully parsable row whose derived age lies outside
[18,100) is retained with a null age group (the blanket `dropna` precedes
the binning, and the final pass filters only the never-null month), so
its amount enters the whole-set metrics and per-month sums while being
omitted from every age-group-keyed aggregation. -/
theorem claim_C10 :
    (∀ rs, clean rs = rs.filterMap cleanRow) ∧
    (∀ r c, cleanRow r = some c → ¬(18 ≤ c.age ∧ c.age < 100) →
      c.ageGroup = none ∧ clean [r] = [c]) ∧
    (∀ rows c, c.ageGroup = none →
      totalAmount (c :: rows) = c.amount + totalAmount rows ∧
      (∀ m, monthAmountSum (c :: rows) m =
        (if c.invMonth = m then c.amount else 0) + monthAmountSum rows m) ∧
      (∀ g, ageAmountSum (c :: rows) g = ageAmountSum rows g)) := by
  refine ⟨clean_eq_filterMap, ?_, ?_⟩
  · intro r c hcr hrange
    obtain ⟨d, u, a, l, y, _, _, _, _, _, _, hcdef⟩ := cleanRow_inv hcr
    constructor
    · subst hcdef
      cases hg : ageGroupOf (referenceYear - d.year) with
      | none => rfl
      | some g =>
        exfalso
        refine hrange ?_
        have : ageGroupOf (referenceYear - d.year) ≠ none := by simp [hg]
        exact (ageGroupOf_ne_none _).mp this
    · rw [clean_eq_filterMap]
      simp [List.filterMap_cons, hcr]
  · intro rows c hnone
    refine ⟨by simp [totalAmount], ?_, ?_⟩
    · intro m
      by_cases hm : c.invMonth = m <;>
        simp [monthAmountSum, List.filter_cons, hm]
    · intro g
      simp [ageAmountSum, List.filter_cons, hnone]

/-- Witness for C10 at a concrete input: the 1915-born row (age 110)
survives with null age group, is counted by the total and its month's
sum, and vanishes from every age-group sum. -/
theorem claim_C10_witness :
    (cleanRow rawOld = some cleanedOld ∧ ¬(18 ≤ cleanedOld.age ∧ cleanedOld.age < 100)) ∧
    (cleanedOld.ageGroup = none ∧ clean [rawOld] = [cleanedOld]) ∧
    totalAmount [cleanedOld, cleanedJuly] = cleanedOld.amount + totalAmount [cleanedJuly] ∧
    monthAmountSum [cleanedOld, cleanedJuly] "AUGUST" =
      (if cleanedOld.invMonth = "AUGUST" then cleanedOld.amount else 0) +
        monthAmountSum [cleanedJuly] "AUGUST" ∧
    ageAmountSum [cleanedOld, cleanedJuly] "70+" = ageAmountSum [cleanedJuly] "70+" :=
  ⟨⟨by decide, by decide⟩,
   claim_C10.2.1 rawOld cleanedOld (by decide) (by decide),
   (claim_C10.2.2 [cleanedJuly] cleanedOld (by decide)).1,
   (claim_C10.2.2 [cleanedJuly] cleanedOld (by decide)).2.1 "AUGUST",
   (claim_C10.2.2 [cleanedJuly] cleanedOld (by decide)).2.2 "70+"⟩

/-- Claim C5: the (month × age-group) amount pivot has a cell for every
pair from the fixed seven-month fiscal ordering and the six bin labels,
rows in fiscal order and columns in bin order, and a cell with no
matching rows holds exactly 0. -/
theorem claim_C5 :
    (∀ rows, (heatmapMatrix rows).map Prod.fst = month_order) ∧
    (∀ rows mrow, mrow ∈ heatmapMatrix rows →
      mrow.2.map Prod.fst = labels ∧
      ∀ cell ∈ mrow.2, cell.2 = pivotCell rows mrow.1 cell.1) ∧
    (∀ rows m g, (∀ c ∈ rows, ¬(c.invMonth = m ∧ c.ageGroup = some g)) →
      pivotCell rows m g = 0) := by
  refine ⟨?_, ?_, ?_⟩
  · intro rows
    simp [heatmapMatrix, Function.comp_def]
  · intro rows mrow hmem
    simp only [heatmapMatrix, List.mem_map] at hmem
    obtain ⟨m, hm, rfl⟩ := hmem
    constructor
    · simp [Function.comp_def]
    · intro cell hcell
      simp only [List.mem_map] at hcell
      obtain ⟨g, hg, rfl⟩ := hcell
      rfl
  · intro rows m g hnone
    unfold pivotCell
    have hfil : rows.filter (fun c => decide (c.invMonth = m ∧ c.ageGroup = some g)) = [] := by
      rw [List.filter_eq_nil_iff]
      intro c hc
      simp [hnone c hc]
    rw [hfil]
    rfl

/-- Witness for C5 at a concrete input: no "70+" investor appears in
"AUGUST" among the cleaned sample rows, and that cell is exactly 0. -/
theorem claim_C5_witness :
    (heatmapMatrix (clean [rawJuly, rawJanuary])).map Prod.fst = month_order ∧
    pivotCell (clean [rawJuly, rawJanuary]) "AUGUST" "70+" = 0 :=
  ⟨claim_C5.1 (clean [rawJuly, rawJanuary]),
   claim_C5.2.2 (clean [rawJuly, rawJanuary]) "AUGUST" "70+" (by decide)⟩

/-- The six bin labels are pairwise distinct. -/
lemma labels_nodup : labels.Nodup := by decide

/-- Unfolding one row out of a per-group amount sum. -/
lemma ageAmountSum_cons (c : CleanedRecord) (rows : List CleanedRecord) (g : String) :
    ageAmountSum (c :: rows) g =
      (if c.ageGroup = some g then c.amount else 0) + ageAmountSum rows g := by
  by_cases h : c.ageGroup = some g <;> simp [ageAmountSum, List.filter_cons, h]

/-- Summing a pointwise sum of two integer-valued maps splits. -/
lemma sum_map_add {α : Type} (l : List α) (f g : α → Int) :
    (l.map (fun x => f x + g x)).sum = (l.map f).sum + (l.map g).sum := by
  induction l with
  | nil => simp
  | cons x xs ih =>
    simp only [List.map_cons, List.sum_cons, ih]
    ring

/-- Over a duplicate-free label list, an indicator sum picks out exactly
the one matching label. -/
lemma sum_indicator_mem {ls : List String} (hnd : ls.Nodup) {g₀ : String}
    (hg : g₀ ∈ ls) (a : Int) :
    (ls.map (fun g => if some g₀ = some g then a else 0)).sum = a := by
  induction ls with
  | nil => exact absurd hg (List.not_mem_nil _)
  | cons x xs ih =>
    rw [List.nodup_cons] at hnd
    obtain ⟨hx, hxs⟩ := hnd
    rw [List.map_cons, List.sum_cons]
    rcases List.mem_cons.mp hg with rfl | h
    · rw [if_pos rfl, add_right_eq_self]
      apply List.sum_eq_zero
      intro v hv
      rw [List.mem_map] at hv
      obtain ⟨g, hgxs, rfl⟩ := hv
      rw [if_neg]
      intro hc
      injection hc with hc
      subst hc
      exact hx hgxs
    · rw [if_neg, zero_add]
      · exact ih hxs h
      · intro hc
        injection hc with hc
        subst hc
        exact hx h

/-- Grouping by age group partitions the rows with a non-null group:
the per-group sums add up to the amount total over those rows, provided
every non-null group is one of the six labels. -/
lemma ageAmountSum_conservation (rows : List CleanedRecord)
    (hrows : ∀ c ∈ rows, c.ageGroup = none ∨ ∃ g ∈ labels, c.ageGroup = some g) :
    (labels.map (fun g => ageAmountSum rows g)).sum =
      ((rows.filter (fun c => c.ageGroup.isSome)).map (fun c => c.amount)).sum := by
  induction rows with
  | nil => simp [ageAmountSum]
  | cons c rows ih =>
    have hc := hrows c (List.mem_cons_self c rows)
    have hrest : ∀ x ∈ rows, x.ageGroup = none ∨ ∃ g ∈ labels, x.ageGroup = some g :=
      fun x hx => hrows x (List.mem_cons_of_mem c hx)
    have hmap : labels.map (fun g => ageAmountSum (c :: rows) g) =
        labels.map (fun g => (if c.ageGroup = some g then c.amount else 0) +
          ageAmountSum rows g) :=
      List.map_congr_left (fun g _ => ageAmountSum_cons c rows g)
    rw [hmap, sum_map_add, ih hrest]
    rcases hc with hnone | ⟨g₀, hg₀, hsome⟩
    · rw [hnone]
      simp [List.filter_cons, hnone]
    · rw [hsome, sum_indicator_mem labels_nodup hg₀]
      simp [List.filter_cons, hsome]

/-- Every record in the cleaned output has a null age group or one of the
six labels. -/
lemma clean_ageGroup_labels {rs : List RawRecord} {c : CleanedRecord}
    (hc : c ∈ clean rs) : c.ageGroup = none ∨ ∃ g ∈ labels, c.ageGroup = some g := by
  obtain ⟨r, _, hr⟩ := mem_clean hc
  obtain ⟨d, u, a, l, y, _, _, _, _, _, _, hcdef⟩ := cleanRow_inv hr
  subst hcdef
  cases hg : ageGroupOf (referenceYear - d.year) with
  | none => exact Or.inl rfl
  | some g => exact Or.inr ⟨g, ageGroupOf_mem_labels hg, rfl⟩

/-- Claim C6: for any filter selection (age-group/land-type in `app.py`,
year in `main.py`), the per-age-group amount sums add up to the amount
total over the aggregated records having a non-null age group. -/
theorem claim_C6 :
    (∀ rs gsel lsel,
      (labels.map (fun g => ageAmountSum (filtered_df (clean rs) gsel lsel) g)).sum =
        (((filtered_df (clean rs) gsel lsel).filter (fun c => c.ageGroup.isSome)).map
          (fun c => c.amount)).sum) ∧
    (∀ rs y,
      (labels.map (fun g => ageAmountSum (filteredByYear (clean rs) y) g)).sum =
        (((filteredByYear (clean rs) y).filter (fun c => c.ageGroup.isSome)).map
          (fun c => c.amount)).sum) := by
  constructor
  · intro rs gsel lsel
    apply ageAmountSum_conservation
    intro c hc
    exact clean_ageGroup_labels (List.mem_of_mem_filter hc)
  · intro rs y
    apply ageAmountSum_conservation
    intro c hc
    exact clean_ageGroup_labels (List.mem_of_mem_filter hc)

/-! ### View tables (C4) -/

/-- `pd.crosstab`-style count of records grouped by (age group, land
type) at one cell, as used by the land-type distribution charts. -/
def landGroupCount (rows : List CleanedRecord) (g l : String) : Nat :=
  (rows.filter (fun c => decide (c.ageGroup = some g ∧ c.land = l))).length

/-- Line 52 of `app.py`: `filtered_df.groupby("AGE GROUP")["AMOUNT"].sum()`. -/
def age_amount_df (rows : List CleanedRecord) (gsel : List (Option String))
    (lsel : List String) (g : String) : Int :=
  ageAmountSum (filtered_df rows gsel lsel) g

/-- Line 63 of `app.py`: `filtered_df.groupby("AGE GROUP")["UNIT"].sum()`. -/
def age_units_df (rows : List CleanedRecord) (gsel : List (Option String))
    (lsel : List String) (g : String) : Int :=
  ageUnitSum (filtered_df rows gsel lsel) g

/-- Line 58 of `app.py`: the (age group, land type) histogram counts over
`filtered_df`. -/
def land_hist (rows : List CleanedRecord) (gsel : List (Option String))
    (lsel : List String) (g l : String) : Nat :=
  landGroupCount (filtered_df rows gsel lsel) g l

/-- Line 74 of `app.py`: `filtered_df.groupby("INVESTMENT MONTH")["AMOUNT"].sum()`. -/
def monthly_investment (rows : List CleanedRecord) (gsel : List (Option String))
    (lsel : List String) (m : String) : Int :=
  monthAmountSum (filtered_df rows gsel lsel) m

/-- Line 88 of `app.py`: `df.pivot_table(index="AGE GROUP", values="AMOUNT",
aggfunc="sum")` — computed over `df`, the full cleaned set, not over
`filtered_df`. -/
def age_investment_pivot (rows : List CleanedRecord) (g : String) : Int :=
  ageAmountSum rows g

/-- Line 95 of `app.py`: `pd.crosstab(df["INVESTMENT MONTH"],
df["AGE GROUP"])` — computed over `df`, not `filtered_df`. -/
def age_month_ct (rows : List CleanedRecord) (m g : String) : Nat :=
  monthGroupCount rows m g

/-- Line 102 of `app.py`: `df.pivot_table(index="INVESTMENT MONTH",
columns="AGE GROUP", values="AMOUNT", aggfunc="sum", fill_value=0)` —
computed over `df`, not `filtered_df`. -/
def heatmap_data (rows : List CleanedRecord) (m g : String) : Int :=
  pivotCell rows m g

/-- Line 109 of `app.py`: `df.groupby(["INVESTMENT MONTH", "AGE GROUP"])
["AMOUNT"].sum().unstack()` — computed over `df`, not `filtered_df`. -/
def df_grouped (rows : List CleanedRecord) (m g : String) : Int :=
  pivotCell rows m g

/-- Line 52 of `main.py`: the per-age-group amount sum over the
year-filtered subset. -/
def main_age_amount_df (rows : List CleanedRecord) (y : Int) (g : String) : Int :=
  ageAmountSum (filteredByYear rows y) g

/-- Line 69 of `main.py`: the per-age-group unit sum over the
year-filtered subset. -/
def main_age_units_df (rows : List CleanedRecord) (y : Int) (g : String) : Int :=
  ageUnitSum (filteredByYear rows y) g

/-- Line 62 of `main.py`: the (age group, land type) counts over the
year-filtered subset. -/
def main_land_count (rows : List CleanedRecord) (y : Int) (g l : String) : Nat :=
  landGroupCount (filteredByYear rows y) g l

/-- Line 78 of `main.py`: the month × age-group amount pivot over the
year-filtered subset. -/
def main_heatmap_data (rows : List CleanedRecord) (y : Int) (m g : String) : Int :=
  pivotCell (filteredByYear rows y) m g

/-- Line 125 of `main.py`: the month × age-group crosstab over the
year-filtered subset. -/
def main_age_month_ct (rows : List CleanedRecord) (y : Int) (m g : String) : Nat :=
  monthGroupCount (filteredByYear rows y) m g

/-- A second valid July row in the same age bin as `rawJuly` but with a
different land type. -/
def rawJulyComm : RawRecord :=
  { dob := Cell.val ⟨1998, 3, 3⟩, invYear := some 2024, invMonth := some "JULY",
    land := some "Commercial", unit := Cell.val 3, amount := Cell.val 111 }

/-- Counterexample to C4 as stated: with the cleaned set from
`[rawJuly, rawJulyComm]` and the filter selecting age group "18-29" and
land type "Residential" only, the month × age-group pivot presented by
`app.py` (computed over the full cleaned set `df`, line 102) differs at
cell ("JULY", "18-29") from the same grouped reduction over the filtered
subset: 500111 versus 500000. -/
theorem claim_C4_counterexample :
    heatmap_data (clean [rawJuly, rawJulyComm]) "JULY" "18-29" ≠
      pivotCell (filtered_df (clean [rawJuly, rawJulyComm])
        [some "18-29"] ["Residential"]) "JULY" "18-29" := by decide

/-- Claim C4 (amended): in `app.py` the per-age-group amount sum, the
per-age-group unit sum, the age-group × land-type counts and the
per-month amount sum are grouped reductions over the filtered subset,
but the per-age-group amount pivot, the month × age-group crosstab, the
month × age-group amount pivot and the stacked-bar table are grouped
reductions over the full cleaned set, ignoring the filter selection; in
`main.py` every summary table is a grouped reduction over the
year-filtered subset. -/
theorem claim_C4 :
    (∀ rows gsel lsel g, age_amount_df rows gsel lsel g =
      ageAmountSum (filtered_df rows gsel lsel) g) ∧
    (∀ rows gsel lsel g, age_units_df rows gsel lsel g =
      ageUnitSum (filtered_df rows gsel lsel) g) ∧
    (∀ rows gsel lsel g l, land_hist rows gsel lsel g l =
      landGroupCount (filtered_df rows gsel lsel) g l) ∧
    (∀ rows gsel lsel m, monthly_investment rows gsel lsel m =
      monthAmountSum (filtered_df rows gsel lsel) m) ∧
    (∀ rows g, age_investment_pivot rows g = ageAmountSum rows g) ∧
    (∀ rows m g, age_month_ct rows m g = monthGroupCount rows m g) ∧
    (∀ rows m g, heatmap_data rows m g = pivotCell rows m g) ∧
    (∀ rows m g, df_grouped rows m g = pivotCell rows m g) ∧
    (∀ rows y g, main_age_amount_df rows y g = ageAmountSum (filteredByYear rows y) g) ∧
    (∀ rows y g, main_age_units_df rows y g = ageUnitSum (filteredByYear rows y) g) ∧
    (∀ rows y g l, main_land_count rows y g l =
      landGroupCount (filteredByYear rows y) g l) ∧
    (∀ rows y m g, main_heatmap_data rows y m g =
      pivotCell (filteredByYear rows y) m g) ∧
    (∀ rows y m g, main_age_month_ct rows y m g =
      monthGroupCount (filteredByYear rows y) m g) := by
  refine ⟨?_, ?_, ?_, ?_, ?_, ?_, ?_, ?_, ?_, ?_, ?_, ?_, ?_⟩ <;> intros <;> rfl
